import Mathlib

/-!
Verification of the heatmap-generation scripts.

The repository consists of five near-duplicate Python scripts.  Each one
reads a CSV of city names, counts occurrences (`load_cities_from_csv`),
resolves each city to coordinates through a geocoding service with a JSON
cache (`geocode_cities`), and renders a heat map.

This file gives a shallow embedding of that logic:

* floats are modelled as exact rationals (the scripts only move coordinate
  values around and compare counts against a threshold);
* the Python dict is modelled as an insertion-ordered association list with
  first-binding-wins lookup (`dictFind`);
* the geocoding collaborator is a function from query strings to a reply
  (found / not found / raised exception), which also captures the
  assumption that it answers a repeated query identically;
* fallible code returns `Except`.

There are two distinct `geocode_cities` implementations in the repository:
`generate_heatmap.py`, `generate_heatmap_image.py` and
`generate_heatmap_svg.py` merge fresh results directly into the loaded
cache dict and skip cached names (namespace `GenerateHeatmap`);
`generate_static_heatmap.py` and `generate_heatmap_geojson.py` keep the
output dict separate from the cache dict and refresh the count on a cache
hit (namespace `GenerateStaticHeatmap`).
-/

/-- Python `str.strip()`: drop leading and trailing whitespace.  Written
over the character list so that it evaluates by kernel reduction. -/
def pyStrip (s : String) : String :=
  ⟨((s.data.dropWhile Char.isWhitespace).reverse.dropWhile Char.isWhitespace).reverse⟩

/-- One value of the geocoded dict: `{lat: ..., lon: ..., count: ...}`. -/
structure GeoRecord where
  lat : ℚ
  lon : ℚ
  count : ℕ
deriving DecidableEq, Repr

/-- Outcome of one call to `geolocator.geocode(...)`: a location, `None`,
or a raised exception. -/
inductive GeoReply where
  | found (lat lon : ℚ)
  | notFound
  | err
deriving DecidableEq, Repr

/-- Whether a reply carries coordinates. -/
def GeoReply.isFound : GeoReply → Bool
  | GeoReply.found _ _ => true
  | GeoReply.notFound => false
  | GeoReply.err => false

/-- The geocoding collaborator, as a deterministic map from query string to
reply.  Determinism models the assumption that repeated identical queries
are answered identically. -/
abbrev Geocoder := String → GeoReply

/-- Query construction, all five scripts:
`location_query = f"\x7bcity\x7d, São Paulo, Brasil"`. -/
def locationQuery (city : String) : String :=
  city ++ ", São Paulo, Brasil"

/-- Lookup in a Python dict modelled as an insertion-ordered association
list; the first binding for a key wins (an actual dict never holds two). -/
def dictFind (m : List (String × α)) (k : String) : Option α :=
  match m with
  | [] => none
  | (k', v) :: m => if k' = k then some v else dictFind m k

/-- The city names contributed by one data row of the CSV
(`load_cities_from_csv`, identical in all five scripts): every field except
the last (`row[:-1]`), stripped, with blanks dropped. -/
def rowCities (row : List String) : List String :=
  (row.dropLast.map pyStrip).filter (fun s => s ≠ "")

/-- `load_cities_from_csv` up to the `Counter` call: the first row is the
header and is skipped by `next(reader)` (which raises `StopIteration`,
hence `none`, when the input has no rows at all); the remaining rows each
contribute `rowCities`.  The resulting multiset of names is the argument
of `Counter`, so the `FrequencyTable` of a name is its `List.count` here. -/
def load_cities_from_csv : List (List String) → Option (List String)
  | [] => none
  | _header :: dataRows => some (dataRows.map rowCities).flatten

/-- The `FrequencyTable` built by `Counter(cities)`: each distinct name
paired with its number of occurrences, in order of first appearance read
off `List.dedup`'s representative choice. -/
def counterTable (cities : List String) : List (String × ℕ) :=
  cities.dedup.map (fun c => (c, cities.count c))

namespace GenerateHeatmap

/-- Body of the `for` loop of `geocode_cities` in `generate_heatmap.py`
(lines 44-63), identical in `generate_heatmap_image.py` and
`generate_heatmap_svg.py`: the loaded cache itself is the dict being
built; a name already present is skipped (`continue`) with no count
update, otherwise the geocoder is consulted and only a `found` reply adds
an entry (holding the current frequency); `not found` and exceptions leave
the dict unchanged and move on. -/
def geocodeStep (g : Geocoder) (geocoded : List (String × GeoRecord)) (e : String × ℕ) :
    List (String × GeoRecord) :=
  match dictFind geocoded e.1 with
  | some _ => geocoded
  | none =>
    match g (locationQuery e.1) with
    | GeoReply.found la lo => geocoded ++ [(e.1, ⟨la, lo, e.2⟩)]
    | GeoReply.notFound => geocoded
    | GeoReply.err => geocoded

/-- `geocode_cities` of `generate_heatmap.py` (lines 32-69): the cache
file contents seed `geocoded`, the frequency table is traversed once, and
the same dict is both written back to the cache file and returned. -/
def geocode_cities (g : Geocoder) (city_counts : List (String × ℕ))
    (cache0 : List (String × GeoRecord)) : List (String × GeoRecord) :=
  city_counts.foldl (geocodeStep g) cache0

/-- `avg_count = sum(counts) / len(counts)` (line 85). -/
def mean (counts : List ℕ) : ℚ :=
  (counts.map (fun c => (c : ℚ))).sum / counts.length

/-- `min_threshold` of `create_heatmap` (lines 83-88): `max(3, avg_count
* 0.2)` when there are counts, `3` otherwise. -/
def min_threshold (counts : List ℕ) : ℚ :=
  if counts.isEmpty then 3 else max 3 (mean counts * 0.2)

/-- Heat points contributed by one record (lines 103-108): nothing when the
count is below the threshold, otherwise `max(1, int(count * 2))` copies of
its coordinates (`int(count * 2)` is exactly `2 * count` for an integer
count). -/
def cityPoints (thr : ℚ) (r : GeoRecord) : List (ℚ × ℚ) :=
  if thr ≤ (r.count : ℚ) then List.replicate (max 1 (2 * r.count)) (r.lat, r.lon) else []

/-- `heat_data` of `create_heatmap` (lines 95-110): concatenation of every
record's contribution, in dict order. -/
def heat_data (gc : List (String × GeoRecord)) (thr : ℚ) : List (ℚ × ℚ) :=
  (gc.map (fun e => cityPoints thr e.2)).flatten

/-- `create_heatmap` of `generate_heatmap.py` (lines 71-228), reduced to
its data flow.  With an empty mapping, `avg_count` is assigned in neither
branch of lines 83-89 and line 92 reads it: `NameError`.  Otherwise the
threshold and heat data are computed; the legend block (lines 156-158)
takes `min` of the counts that meet the threshold, which raises
`ValueError` on an empty list.  Only after that is the map saved: `ok`
returns the heat data, the threshold, and the legend's `min_freq`. -/
def create_heatmap (gc : List (String × GeoRecord)) :
    Except String (List (ℚ × ℚ) × ℚ × ℕ) :=
  match gc.map (fun e => e.2.count) with
  | [] => Except.error "NameError: name avg_count is not defined"
  | c :: cs =>
    let thr := min_threshold (c :: cs)
    match ((c :: cs).filter (fun (k : ℕ) => thr ≤ (k : ℚ))).min? with
    | none => Except.error "ValueError: min arg is an empty sequence"
    | some m => Except.ok (heat_data gc thr, thr, m)

end GenerateHeatmap

namespace GenerateStaticHeatmap

/-- The two dicts of `geocode_cities` in `generate_static_heatmap.py`
(also `generate_heatmap_geojson.py`): the merged output being built and
the cache being extended. -/
structure GeoState where
  geocoded : List (String × GeoRecord)
  cached_data : List (String × GeoRecord)
deriving DecidableEq, Repr

/-- Body of the `for` loop of `geocode_cities` in
`generate_static_heatmap.py` (lines 44-74), identical in
`generate_heatmap_geojson.py` (lines 101-131): a cache hit copies the
cached coordinates into the output with the current run's count and
leaves the cache untouched; otherwise a `found` reply adds the fresh
record to both dicts, while `not found` and exceptions change nothing. -/
def geocodeStep (g : Geocoder) (st : GeoState) (e : String × ℕ) : GeoState :=
  match dictFind st.cached_data e.1 with
  | some r => { st with geocoded := st.geocoded ++ [(e.1, ⟨r.lat, r.lon, e.2⟩)] }
  | none =>
    match g (locationQuery e.1) with
    | GeoReply.found la lo =>
      { geocoded := st.geocoded ++ [(e.1, ⟨la, lo, e.2⟩)],
        cached_data := st.cached_data ++ [(e.1, ⟨la, lo, e.2⟩)] }
    | GeoReply.notFound => st
    | GeoReply.err => st

/-- `geocode_cities` of `generate_static_heatmap.py` (lines 32-81): start
from an empty output and the loaded cache, traverse the frequency table
once; `cached_data` is what is written back to the cache file and
`geocoded` is what is returned. -/
def geocode_cities (g : Geocoder) (city_counts : List (String × ℕ))
    (cache0 : List (String × GeoRecord)) : GeoState :=
  city_counts.foldl (geocodeStep g) ⟨[], cache0⟩

/-- The merged output of the loop, written as structural recursion on the
frequency table (proved equal to the fold in `geocode_cities_eq`). -/
def mergedRun (g : Geocoder) :
    List (String × ℕ) → List (String × GeoRecord) → List (String × GeoRecord)
  | [], _ => []
  | (city, n) :: f, c =>
    match dictFind c city with
    | some r => (city, ⟨r.lat, r.lon, n⟩) :: mergedRun g f c
    | none =>
      match g (locationQuery city) with
      | GeoReply.found la lo =>
        (city, ⟨la, lo, n⟩) :: mergedRun g f (c ++ [(city, ⟨la, lo, n⟩)])
      | GeoReply.notFound => mergedRun g f c
      | GeoReply.err => mergedRun g f c

/-- The final cache of the loop, written as structural recursion on the
frequency table (proved equal to the fold in `geocode_cities_eq`). -/
def cacheRun (g : Geocoder) :
    List (String × ℕ) → List (String × GeoRecord) → List (String × GeoRecord)
  | [], c => c
  | (city, n) :: f, c =>
    match dictFind c city with
    | some _ => cacheRun g f c
    | none =>
      match g (locationQuery city) with
      | GeoReply.found la lo => cacheRun g f (c ++ [(city, ⟨la, lo, n⟩)])
      | GeoReply.notFound => cacheRun g f c
      | GeoReply.err => cacheRun g f c

/-- Heat points contributed by one record in `create_static_heatmap`
(lines 139-150): no threshold filter, `max(1, int(count * 2.5))` copies;
`int(count * 2.5)` is `5 * count / 2` rounded toward zero. -/
def staticPoints (r : GeoRecord) : List (ℚ × ℚ) :=
  List.replicate (max 1 (5 * r.count / 2)) (r.lat, r.lon)

/-- `heat_data` of `create_static_heatmap` (lines 139-150). -/
def heat_data (gc : List (String × GeoRecord)) : List (ℚ × ℚ) :=
  (gc.map (fun e => staticPoints e.2)).flatten

end GenerateStaticHeatmap

namespace GenerateHeatmapImage

/-- Density points contributed by one record in `create_heatmap_image` of
`generate_heatmap_image.py` (lines 106-117): `min(int(count), 30)` copies
of its coordinates, no threshold and no multiplier.
`create_heatmap_with_geojson` in `generate_heatmap_geojson.py` (lines
370-381) builds its expanded data the same way. -/
def expandPoints (r : GeoRecord) : List (ℚ × ℚ) :=
  List.replicate (min r.count 30) (r.lat, r.lon)

/-- The expanded density data of `create_heatmap_image` (lines 106-117). -/
def expanded_data (gc : List (String × GeoRecord)) : List (ℚ × ℚ) :=
  (gc.map (fun e => expandPoints e.2)).flatten

end GenerateHeatmapImage

namespace GenerateHeatmapSvg

/-- Heat points contributed by one record in `create_heatmap_svg` of
`generate_heatmap_svg.py` (lines 119-126): `min(count, 40)` copies. -/
def svgPoints (r : GeoRecord) : List (ℚ × ℚ) :=
  List.replicate (min r.count 40) (r.lat, r.lon)

/-- `heat_data` of `create_heatmap_svg` (lines 119-126). -/
def heat_data (gc : List (String × GeoRecord)) : List (ℚ × ℚ) :=
  (gc.map (fun e => svgPoints e.2)).flatten

end GenerateHeatmapSvg

/-- A geocoder that never finds anything, for concrete instances. -/
def gNone : Geocoder := fun _ => GeoReply.notFound

/-- Example city name used in concrete instances. -/
def exSantos : String := "Santos"

/-- Second example city name used in concrete instances. -/
def exJundiai : String := "Jundiai"

/-- A geocoder that resolves only `exJundiai`, for concrete instances. -/
def gJundiai : Geocoder :=
  fun q => if q = locationQuery exJundiai then GeoReply.found (-23) (-47) else GeoReply.notFound

/-- Example starting cache holding `exSantos` with count 5. -/
def exCache : List (String × GeoRecord) := [(exSantos, ⟨-24, -46, 5⟩)]

/-! Helper lemmas about `dictFind`. -/

theorem dictFind_append_of_some {m₁ m₂ : List (String × α)} {k : String} {v : α}
    (h : dictFind m₁ k = some v) : dictFind (m₁ ++ m₂) k = some v := by
  induction m₁ with
  | nil => simp [dictFind] at h
  | cons e m ih =>
    obtain ⟨k', v'⟩ := e
    by_cases hk : k' = k
    · simpa [dictFind, hk] using by simpa [dictFind, hk] using h
    · simp only [dictFind, List.cons_append, if_neg hk] at h ⊢
      exact ih h

theorem dictFind_append_of_none {m₁ : List (String × α)} {k : String}
    (h : dictFind m₁ k = none) (m₂ : List (String × α)) :
    dictFind (m₁ ++ m₂) k = dictFind m₂ k := by
  induction m₁ with
  | nil => simp
  | cons e m ih =>
    obtain ⟨k', v'⟩ := e
    by_cases hk : k' = k
    · simp [dictFind, hk] at h
    · simp only [dictFind, List.cons_append, if_neg hk] at h ⊢
      exact ih h

theorem dictFind_singleton (k k' : String) (v : α) :
    dictFind [(k', v)] k = if k' = k then some v else none := rfl

theorem dictFind_eq_none_iff {m : List (String × α)} {k : String} :
    dictFind m k = none ↔ k ∉ m.map Prod.fst := by
  induction m with
  | nil => simp [dictFind]
  | cons e m ih =>
    obtain ⟨k', v'⟩ := e
    by_cases hk : k' = k
    · simp [dictFind, hk]
    · simp [dictFind, hk, ih, Ne.symm hk]

theorem dictFind_isSome_iff {m : List (String × α)} {k : String} :
    (dictFind m k).isSome = true ↔ k ∈ m.map Prod.fst := by
  constructor
  · intro h
    by_contra hmem
    rw [dictFind_eq_none_iff.mpr hmem] at h
    simp at h
  · intro hmem
    cases hd : dictFind m k with
    | none => exact absurd hmem (dictFind_eq_none_iff.mp hd)
    | some v => simp

/-! Equivalence of the `generate_static_heatmap` fold with its recursive
presentation. -/

theorem GenerateStaticHeatmap.foldl_eq_runs (g : Geocoder) (f : List (String × ℕ)) :
    ∀ (acc c : List (String × GeoRecord)),
      f.foldl (GenerateStaticHeatmap.geocodeStep g) ⟨acc, c⟩ =
        ⟨acc ++ GenerateStaticHeatmap.mergedRun g f c, GenerateStaticHeatmap.cacheRun g f c⟩ := by
  induction f with
  | nil => intro acc c; simp [GenerateStaticHeatmap.mergedRun, GenerateStaticHeatmap.cacheRun]
  | cons e f ih =>
    intro acc c
    obtain ⟨city, n⟩ := e
    rw [List.foldl_cons]
    cases hc : dictFind c city with
    | some r =>
      simp only [GenerateStaticHeatmap.geocodeStep, hc, GenerateStaticHeatmap.mergedRun,
        GenerateStaticHeatmap.cacheRun, ih]
      simp
    | none =>
      cases hg : g (locationQuery city) with
      | found la lo =>
        simp only [GenerateStaticHeatmap.geocodeStep, hc, hg, GenerateStaticHeatmap.mergedRun,
          GenerateStaticHeatmap.cacheRun, ih]
        simp
      | notFound =>
        simp only [GenerateStaticHeatmap.geocodeStep, hc, hg, GenerateStaticHeatmap.mergedRun,
          GenerateStaticHeatmap.cacheRun, ih]
      | err =>
        simp only [GenerateStaticHeatmap.geocodeStep, hc, hg, GenerateStaticHeatmap.mergedRun,
          GenerateStaticHeatmap.cacheRun, ih]

theorem GenerateStaticHeatmap.geocode_cities_eq (g : Geocoder) (f : List (String × ℕ))
    (c : List (String × GeoRecord)) :
    GenerateStaticHeatmap.geocode_cities g f c =
      ⟨GenerateStaticHeatmap.mergedRun g f c, GenerateStaticHeatmap.cacheRun g f c⟩ := by
  simpa using GenerateStaticHeatmap.foldl_eq_runs g f [] c

/-! Lemmas about the `generate_heatmap.py` variant of `geocode_cities`
(cache and merged output are one dict). -/

theorem hm_cons (g : Geocoder) (e : String × ℕ) (f : List (String × ℕ))
    (c : List (String × GeoRecord)) :
    GenerateHeatmap.geocode_cities g (e :: f) c =
      GenerateHeatmap.geocode_cities g f (GenerateHeatmap.geocodeStep g c e) := rfl

theorem hm_step_cases (g : Geocoder) (c : List (String × GeoRecord)) (e : String × ℕ) :
    GenerateHeatmap.geocodeStep g c e = c ∨
      ((dictFind c e.1 = none) ∧ ∃ la lo, g (locationQuery e.1) = GeoReply.found la lo ∧
        GenerateHeatmap.geocodeStep g c e = c ++ [(e.1, ⟨la, lo, e.2⟩)]) := by
  unfold GenerateHeatmap.geocodeStep
  cases hc : dictFind c e.1 with
  | some r => exact Or.inl rfl
  | none =>
    cases hg : g (locationQuery e.1) with
    | found la lo => exact Or.inr ⟨rfl, la, lo, rfl, rfl⟩
    | notFound => exact Or.inl rfl
    | err => exact Or.inl rfl

theorem hm_preserves (g : Geocoder) (f : List (String × ℕ)) :
    ∀ (c : List (String × GeoRecord)) (k : String) (r : GeoRecord),
      dictFind c k = some r → dictFind (GenerateHeatmap.geocode_cities g f c) k = some r := by
  induction f with
  | nil => intro c k r h; simpa [GenerateHeatmap.geocode_cities] using h
  | cons e f ih =>
    intro c k r h
    rw [hm_cons]
    rcases hm_step_cases g c e with hs | ⟨_, la, lo, _, hs⟩
    · rw [hs]; exact ih c k r h
    · rw [hs]; exact ih _ k r (dictFind_append_of_some h)

theorem hm_fail_none (g : Geocoder) (f : List (String × ℕ)) :
    ∀ (c : List (String × GeoRecord)) (k : String),
      dictFind c k = none → (g (locationQuery k)).isFound = false →
      dictFind (GenerateHeatmap.geocode_cities g f c) k = none := by
  induction f with
  | nil => intro c k h _; simpa [GenerateHeatmap.geocode_cities] using h
  | cons e f ih =>
    intro c k h hg
    rw [hm_cons]
    rcases hm_step_cases g c e with hs | ⟨hcnone, la, lo, hfound, hs⟩
    · rw [hs]; exact ih c k h hg
    · rw [hs]
      have hne : e.1 ≠ k := by
        intro heq
        rw [heq] at hfound
        rw [hfound] at hg
        simp [GeoReply.isFound] at hg
      refine ih _ k ?_ hg
      rw [dictFind_append_of_none h, dictFind_singleton, if_neg hne]

theorem hm_found_isSome (g : Geocoder) (f : List (String × ℕ)) :
    ∀ (c : List (String × GeoRecord)) (k : String) (n : ℕ),
      (k, n) ∈ f → (g (locationQuery k)).isFound = true →
      (dictFind (GenerateHeatmap.geocode_cities g f c) k).isSome = true := by
  induction f with
  | nil => intro c k n h _; simp at h
  | cons e f ih =>
    intro c k n hmem hg
    rw [hm_cons]
    rcases List.mem_cons.mp hmem with heq | htail
    · have hk : e.1 = k := by rw [← heq]
      cases hd : dictFind c k with
      | some r =>
        have := hm_preserves g f (GenerateHeatmap.geocodeStep g c e) k r ?_
        · rw [this]; rfl
        · rcases hm_step_cases g c e with hs | ⟨_, la, lo, _, hs⟩
          · rwa [hs]
          · rw [hs]; exact dictFind_append_of_some hd
      | none =>
        cases hgr : g (locationQuery k) with
        | found la lo =>
          have hs : GenerateHeatmap.geocodeStep g c e = c ++ [(e.1, ⟨la, lo, e.2⟩)] := by
            unfold GenerateHeatmap.geocodeStep
            rw [hk, hd, hgr]
          have hfind : dictFind (c ++ [(e.1, ⟨la, lo, e.2⟩)]) k = some ⟨la, lo, e.2⟩ := by
            rw [dictFind_append_of_none hd, dictFind_singleton, if_pos hk]
          rw [hs, hm_preserves g f _ k _ hfind]
          rfl
        | notFound => rw [hgr] at hg; simp [GeoReply.isFound] at hg
        | err => rw [hgr] at hg; simp [GeoReply.isFound] at hg
    · exact ih _ k n htail hg

theorem hm_noop (g : Geocoder) (f : List (String × ℕ)) :
    ∀ (c : List (String × GeoRecord)),
      (∀ k n, (k, n) ∈ f → dictFind c k = none → (g (locationQuery k)).isFound = false) →
      GenerateHeatmap.geocode_cities g f c = c := by
  induction f with
  | nil => intro c _; rfl
  | cons e f ih =>
    intro c hyp
    rw [hm_cons]
    have hstep : GenerateHeatmap.geocodeStep g c e = c := by
      unfold GenerateHeatmap.geocodeStep
      cases hd : dictFind c e.1 with
      | some r => rfl
      | none =>
        have := hyp e.1 e.2 (List.mem_cons_self e f) hd
        cases hgr : g (locationQuery e.1) with
        | found la lo => rw [hgr] at this; simp [GeoReply.isFound] at this
        | notFound => rfl
        | err => rfl
    rw [hstep]
    exact ih c (fun k n hmem => hyp k n (List.mem_cons_of_mem e hmem))

theorem hm_idempotent (g : Geocoder) (f : List (String × ℕ)) (c : List (String × GeoRecord)) :
    GenerateHeatmap.geocode_cities g f (GenerateHeatmap.geocode_cities g f c) =
      GenerateHeatmap.geocode_cities g f c := by
  apply hm_noop
  intro k n hmem hnone
  by_contra hfound
  have : (dictFind (GenerateHeatmap.geocode_cities g f c) k).isSome = true :=
    hm_found_isSome g f c k n hmem (by simpa using hfound)
  rw [hnone] at this
  simp at this

theorem hm_domain (g : Geocoder) (f : List (String × ℕ)) :
    ∀ (c : List (String × GeoRecord)) (k : String),
      (dictFind (GenerateHeatmap.geocode_cities g f c) k).isSome = true →
      (dictFind c k).isSome = true ∨ k ∈ f.map Prod.fst := by
  induction f with
  | nil => intro c k h; exact Or.inl h
  | cons e f ih =>
    intro c k h
    rw [hm_cons] at h
    rcases ih _ k h with hstep | htail
    · rcases hm_step_cases g c e with hs | ⟨hcnone, la, lo, _, hs⟩
      · rw [hs] at hstep; exact Or.inl hstep
      · rw [hs] at hstep
        by_cases hk : e.1 = k
        · exact Or.inr (by simp [← hk])
        · cases hd : dictFind c k with
          | some r => simp [hd]
          | none =>
            rw [dictFind_append_of_none hd, dictFind_singleton, if_neg hk] at hstep
            simp at hstep
    · exact Or.inr (by simp [htail])

theorem hm_fresh_entry (g : Geocoder) (f : List (String × ℕ)) :
    ∀ (c : List (String × GeoRecord)) (k : String) (n : ℕ) (la lo : ℚ),
      (k, n) ∈ f → dictFind c k = none → g (locationQuery k) = GeoReply.found la lo →
      ∃ m, dictFind (GenerateHeatmap.geocode_cities g f c) k = some ⟨la, lo, m⟩ := by
  induction f with
  | nil => intro _ _ _ _ _ h; simp at h
  | cons e f ih =>
    intro c k n la lo hmem hnone hfound
    rw [hm_cons]
    by_cases hk : e.1 = k
    · have hs : GenerateHeatmap.geocodeStep g c e = c ++ [(e.1, ⟨la, lo, e.2⟩)] := by
        unfold GenerateHeatmap.geocodeStep
        rw [hk, hnone, hfound]
      have hfind : dictFind (c ++ [(e.1, ⟨la, lo, e.2⟩)]) k = some ⟨la, lo, e.2⟩ := by
        rw [dictFind_append_of_none hnone, dictFind_singleton, if_pos hk]
      exact ⟨e.2, by rw [hs, hm_preserves g f _ k _ hfind]⟩
    · have htail : (k, n) ∈ f := by
        rcases List.mem_cons.mp hmem with heq | h
        · exact absurd (by rw [← heq]) hk
        · exact h
      rcases hm_step_cases g c e with hs | ⟨hcnone, la', lo', _, hs⟩
      · rw [hs]; exact ih c k n la lo htail hnone hfound
      · rw [hs]
        refine ih _ k n la lo htail ?_ hfound
        rw [dictFind_append_of_none hnone, dictFind_singleton, if_neg hk]

/-! Lemmas about the `generate_static_heatmap.py` variant (separate merged
output and cache dicts). -/

theorem st_cache_preserves (g : Geocoder) (f : List (String × ℕ)) :
    ∀ (c : List (String × GeoRecord)) (k : String) (r : GeoRecord),
      dictFind c k = some r → dictFind (GenerateStaticHeatmap.cacheRun g f c) k = some r := by
  induction f with
  | nil => intro c k r h; simpa [GenerateStaticHeatmap.cacheRun] using h
  | cons e f ih =>
    obtain ⟨city, n⟩ := e
    intro c k r h
    simp only [GenerateStaticHeatmap.cacheRun]
    cases hc : dictFind c city with
    | some r' => exact ih c k r h
    | none =>
      cases hg : g (locationQuery city) with
      | found la lo => exact ih _ k r (dictFind_append_of_some h)
      | notFound => exact ih c k r h
      | err => exact ih c k r h

theorem st_cache_fail_none (g : Geocoder) (f : List (String × ℕ)) :
    ∀ (c : List (String × GeoRecord)) (k : String),
      dictFind c k = none → (g (locationQuery k)).isFound = false →
      dictFind (GenerateStaticHeatmap.cacheRun g f c) k = none := by
  induction f with
  | nil => intro c k h _; simpa [GenerateStaticHeatmap.cacheRun] using h
  | cons e f ih =>
    obtain ⟨city, n⟩ := e
    intro c k h hg
    simp only [GenerateStaticHeatmap.cacheRun]
    cases hc : dictFind c city with
    | some r' => exact ih c k h hg
    | none =>
      cases hgc : g (locationQuery city) with
      | found la lo =>
        have hne : city ≠ k := by
          intro heq
          rw [heq] at hgc
          rw [hgc] at hg
          simp [GeoReply.isFound] at hg
        refine ih _ k ?_ hg
        rw [dictFind_append_of_none h, dictFind_singleton, if_neg hne]
      | notFound => exact ih c k h hg
      | err => exact ih c k h hg

theorem st_cache_fresh (g : Geocoder) (f : List (String × ℕ)) :
    ∀ (c : List (String × GeoRecord)) (k : String) (n : ℕ) (la lo : ℚ),
      (k, n) ∈ f → dictFind c k = none → g (locationQuery k) = GeoReply.found la lo →
      ∃ m, dictFind (GenerateStaticHeatmap.cacheRun g f c) k = some ⟨la, lo, m⟩ := by
  induction f with
  | nil => intro _ _ _ _ _ h; simp at h
  | cons e f ih =>
    obtain ⟨city, m⟩ := e
    intro c k n la lo hmem hnone hfound
    simp only [GenerateStaticHeatmap.cacheRun]
    by_cases hk : city = k
    · rw [hk, hnone, hfound]
      have hfind : dictFind (c ++ [(k, ⟨la, lo, m⟩)]) k = some ⟨la, lo, m⟩ := by
        rw [dictFind_append_of_none hnone, dictFind_singleton, if_pos rfl]
      exact ⟨m, st_cache_preserves g f _ k _ hfind⟩
    · have htail : (k, n) ∈ f := by
        rcases List.mem_cons.mp hmem with heq | h
        · cases heq; exact absurd rfl hk
        · exact h
      cases hc : dictFind c city with
      | some r' => exact ih c k n la lo htail hnone hfound
      | none =>
        cases hgc : g (locationQuery city) with
        | found la' lo' =>
          refine ih _ k n la lo htail ?_ hfound
          rw [dictFind_append_of_none hnone, dictFind_singleton, if_neg hk]
        | notFound => exact ih c k n la lo htail hnone hfound
        | err => exact ih c k n la lo htail hnone hfound

theorem st_cache_domain (g : Geocoder) (f : List (String × ℕ)) :
    ∀ (c : List (String × GeoRecord)) (k : String),
      (dictFind (GenerateStaticHeatmap.cacheRun g f c) k).isSome = true →
      (dictFind c k).isSome = true ∨ k ∈ f.map Prod.fst := by
  induction f with
  | nil => intro c k h; exact Or.inl (by simpa [GenerateStaticHeatmap.cacheRun] using h)
  | cons e f ih =>
    obtain ⟨city, n⟩ := e
    intro c k h
    simp only [GenerateStaticHeatmap.cacheRun] at h
    by_cases hk : city = k
    · exact Or.inr (by simp [hk])
    · cases hc : dictFind c city with
      | some r' =>
        rw [hc] at h
        rcases ih c k h with h1 | h2
        · exact Or.inl h1
        · exact Or.inr (by simp [h2])
      | none =>
        rw [hc] at h
        cases hgc : g (locationQuery city) with
        | found la lo =>
          rw [hgc] at h
          rcases ih _ k h with h1 | h2
          · cases hd : dictFind c k with
            | some r => simp
            | none =>
              rw [dictFind_append_of_none hd, dictFind_singleton, if_neg hk] at h1
              simp at h1
          · exact Or.inr (by simp [h2])
        | notFound =>
          rw [hgc] at h
          rcases ih c k h with h1 | h2
          · exact Or.inl h1
          · exact Or.inr (by simp [h2])
        | err =>
          rw [hgc] at h
          rcases ih c k h with h1 | h2
          · exact Or.inl h1
          · exact Or.inr (by simp [h2])

theorem st_all_hits (g : Geocoder) (f : List (String × ℕ)) :
    ∀ (c : List (String × GeoRecord)),
      (∀ k n, (k, n) ∈ f → (dictFind c k).isSome = true) →
      GenerateStaticHeatmap.cacheRun g f c = c := by
  induction f with
  | nil => intro c _; rfl
  | cons e f ih =>
    obtain ⟨city, n⟩ := e
    intro c hyp
    simp only [GenerateStaticHeatmap.cacheRun]
    cases hc : dictFind c city with
    | some r => exact ih c (fun k m hmem => hyp k m (List.mem_cons_of_mem _ hmem))
    | none =>
      have := hyp city n (List.mem_cons_self _ _)
      rw [hc] at this
      simp at this

theorem st_merged_hit (g : Geocoder) (f : List (String × ℕ)) :
    ∀ (c : List (String × GeoRecord)) (k : String) (n : ℕ) (r : GeoRecord),
      (k, n) ∈ f → dictFind c k = some r →
      (k, (⟨r.lat, r.lon, n⟩ : GeoRecord)) ∈ GenerateStaticHeatmap.mergedRun g f c := by
  induction f with
  | nil => intro _ _ _ _ h; simp at h
  | cons e f ih =>
    obtain ⟨city, m⟩ := e
    intro c k n r hmem hsome
    simp only [GenerateStaticHeatmap.mergedRun]
    rcases List.mem_cons.mp hmem with heq | htail
    · obtain ⟨hk, hn⟩ := Prod.mk.injEq .. ▸ heq
      cases hk; cases hn
      rw [hsome]
      exact List.mem_cons_self _ _
    · cases hc : dictFind c city with
      | some r' => exact List.mem_cons_of_mem _ (ih c k n r htail hsome)
      | none =>
        cases hgc : g (locationQuery city) with
        | found la lo =>
          exact List.mem_cons_of_mem _ (ih _ k n r htail (dictFind_append_of_some hsome))
        | notFound => exact ih c k n r htail hsome
        | err => exact ih c k n r htail hsome

theorem dictFind_append_single_ne {c : List (String × α)} {k city : String} (v : α)
    (hk : city ≠ k) : dictFind (c ++ [(city, v)]) k = dictFind c k := by
  cases hd : dictFind c k with
  | some r => exact dictFind_append_of_some hd
  | none => rw [dictFind_append_of_none hd, dictFind_singleton, if_neg hk]

theorem st_merged_keys_subset (g : Geocoder) (f : List (String × ℕ)) :
    ∀ (c : List (String × GeoRecord)) (k : String),
      k ∈ (GenerateStaticHeatmap.mergedRun g f c).map Prod.fst → k ∈ f.map Prod.fst := by
  induction f with
  | nil => intro c k h; simp [GenerateStaticHeatmap.mergedRun] at h
  | cons e f ih =>
    obtain ⟨city, n⟩ := e
    intro c k h
    simp only [GenerateStaticHeatmap.mergedRun] at h
    cases hc : dictFind c city with
    | some r =>
      rw [hc] at h
      simp only [List.map_cons, List.mem_cons] at h
      rcases h with h | h
      · simp [h]
      · simp [ih c k h]
    | none =>
      rw [hc] at h
      cases hgc : g (locationQuery city) with
      | found la lo =>
        rw [hgc] at h
        simp only [List.map_cons, List.mem_cons] at h
        rcases h with h | h
        · simp [h]
        · simp [ih _ k h]
      | notFound => rw [hgc] at h; simp [ih c k h]
      | err => rw [hgc] at h; simp [ih c k h]

theorem st_merged_nodup (g : Geocoder) (f : List (String × ℕ)) :
    ∀ (c : List (String × GeoRecord)), (f.map Prod.fst).Nodup →
      ((GenerateStaticHeatmap.mergedRun g f c).map Prod.fst).Nodup := by
  induction f with
  | nil => intro c _; simp [GenerateStaticHeatmap.mergedRun]
  | cons e f ih =>
    obtain ⟨city, n⟩ := e
    intro c hnd
    rw [List.map_cons, List.nodup_cons] at hnd
    obtain ⟨hcity, hnd'⟩ := hnd
    simp only [GenerateStaticHeatmap.mergedRun]
    cases hc : dictFind c city with
    | some r =>
      rw [List.map_cons, List.nodup_cons]
      exact ⟨fun hmem => hcity (st_merged_keys_subset g f c city hmem), ih c hnd'⟩
    | none =>
      cases hgc : g (locationQuery city) with
      | found la lo =>
        rw [List.map_cons, List.nodup_cons]
        exact ⟨fun hmem => hcity (st_merged_keys_subset g f _ city hmem), ih _ hnd'⟩
      | notFound => exact ih c hnd'
      | err => exact ih c hnd'

theorem st_cache_nodup (g : Geocoder) (f : List (String × ℕ)) :
    ∀ (c : List (String × GeoRecord)), (c.map Prod.fst).Nodup →
      ((GenerateStaticHeatmap.cacheRun g f c).map Prod.fst).Nodup := by
  induction f with
  | nil => intro c h; simpa [GenerateStaticHeatmap.cacheRun] using h
  | cons e f ih =>
    obtain ⟨city, n⟩ := e
    intro c hnd
    simp only [GenerateStaticHeatmap.cacheRun]
    cases hc : dictFind c city with
    | some r => exact ih c hnd
    | none =>
      cases hgc : g (locationQuery city) with
      | found la lo =>
        refine ih _ ?_
        have hcity : city ∉ c.map Prod.fst := dictFind_eq_none_iff.mp hc
        simp [List.nodup_append, hnd, hcity]
      | notFound => exact ih c hnd
      | err => exact ih c hnd

theorem st_merged_sub_cache (g : Geocoder) (f : List (String × ℕ)) :
    ∀ (c : List (String × GeoRecord)) (k : String),
      k ∈ (GenerateStaticHeatmap.mergedRun g f c).map Prod.fst →
      k ∈ (GenerateStaticHeatmap.cacheRun g f c).map Prod.fst := by
  induction f with
  | nil => intro c k h; simp [GenerateStaticHeatmap.mergedRun] at h
  | cons e f ih =>
    obtain ⟨city, n⟩ := e
    intro c k h
    simp only [GenerateStaticHeatmap.mergedRun] at h
    simp only [GenerateStaticHeatmap.cacheRun]
    cases hc : dictFind c city with
    | some r =>
      rw [hc] at h
      simp only [List.map_cons, List.mem_cons] at h
      rcases h with h | h
      · subst h
        exact dictFind_isSome_iff.mp (by rw [st_cache_preserves g f c k r hc]; rfl)
      · exact ih c k h
    | none =>
      cases hgc : g (locationQuery city) with
      | found la lo =>
        rw [hc, hgc] at h
        simp only [List.map_cons, List.mem_cons] at h
        rcases h with h | h
        · subst h
          have hfind : dictFind (c ++ [(k, (⟨la, lo, n⟩ : GeoRecord))]) k =
              some ⟨la, lo, n⟩ := by
            rw [dictFind_append_of_none hc, dictFind_singleton, if_pos rfl]
          exact dictFind_isSome_iff.mp (by rw [st_cache_preserves g f _ k _ hfind]; rfl)
        · exact ih _ k h
      | notFound => rw [hc, hgc] at h; exact ih c k h
      | err => rw [hc, hgc] at h; exact ih c k h

theorem st_main (g : Geocoder) (f : List (String × ℕ)) :
    ∀ (c d : List (String × GeoRecord)),
      (∀ k r, dictFind c k = some r → ∃ m, dictFind d k = some ⟨r.lat, r.lon, m⟩) →
      (∀ k n, (k, n) ∈ f → dictFind c k = none → (g (locationQuery k)).isFound = false →
        dictFind d k = none) →
      (∀ k n la lo, (k, n) ∈ f → dictFind c k = none →
        g (locationQuery k) = GeoReply.found la lo → ∃ m, dictFind d k = some ⟨la, lo, m⟩) →
      GenerateStaticHeatmap.mergedRun g f d = GenerateStaticHeatmap.mergedRun g f c ∧
        GenerateStaticHeatmap.cacheRun g f d = d := by
  induction f with
  | nil => intro c d _ _ _; exact ⟨rfl, rfl⟩
  | cons e f ih =>
    obtain ⟨city, n⟩ := e
    intro c d h1 h2 h3
    cases hc : dictFind c city with
    | some r =>
      obtain ⟨m, hd⟩ := h1 city r hc
      obtain ⟨hm1, hm2⟩ := ih c d h1
        (fun k n' hm => h2 k n' (List.mem_cons_of_mem _ hm))
        (fun k n' la lo hm => h3 k n' la lo (List.mem_cons_of_mem _ hm))
      constructor
      · simp only [GenerateStaticHeatmap.mergedRun, hc, hd, hm1]
      · simp only [GenerateStaticHeatmap.cacheRun, hd, hm2]
    | none =>
      cases hgc : g (locationQuery city) with
      | found la lo =>
        obtain ⟨m, hd⟩ := h3 city n la lo (List.mem_cons_self _ _) hc hgc
        have hsub : ∀ k, dictFind (c ++ [(city, (⟨la, lo, n⟩ : GeoRecord))]) k = none →
            dictFind c k = none := by
          intro k hk
          cases hck : dictFind c k with
          | some r'' => rw [dictFind_append_of_some hck] at hk; cases hk
          | none => rfl
        have h1' : ∀ k r, dictFind (c ++ [(city, (⟨la, lo, n⟩ : GeoRecord))]) k = some r →
            ∃ m', dictFind d k = some ⟨r.lat, r.lon, m'⟩ := by
          intro k r' hk
          cases hck : dictFind c k with
          | some r'' =>
            have heq := (@dictFind_append_of_some GeoRecord c
              [(city, (⟨la, lo, n⟩ : GeoRecord))] k r'' hck).symm.trans hk
            injection heq with hrr
            subst hrr
            exact h1 k _ hck
          | none =>
            rw [dictFind_append_of_none hck, dictFind_singleton] at hk
            by_cases hkc : city = k
            · rw [if_pos hkc] at hk
              injection hk with hr
              subst hkc
              rw [← hr]
              exact ⟨m, hd⟩
            · rw [if_neg hkc] at hk
              cases hk
        obtain ⟨hm1, hm2⟩ := ih (c ++ [(city, ⟨la, lo, n⟩)]) d h1'
          (fun k n' hm hk => h2 k n' (List.mem_cons_of_mem _ hm) (hsub k hk))
          (fun k n' la' lo' hm hk => h3 k n' la' lo' (List.mem_cons_of_mem _ hm) (hsub k hk))
        constructor
        · simp only [GenerateStaticHeatmap.mergedRun, hc, hgc, hd, hm1]
        · simp only [GenerateStaticHeatmap.cacheRun, hd, hm2]
      | notFound =>
        have hgf : (g (locationQuery city)).isFound = false := by rw [hgc]; rfl
        have hdn := h2 city n (List.mem_cons_self _ _) hc hgf
        obtain ⟨hm1, hm2⟩ := ih c d h1
          (fun k n' hm => h2 k n' (List.mem_cons_of_mem _ hm))
          (fun k n' la lo hm => h3 k n' la lo (List.mem_cons_of_mem _ hm))
        constructor
        · simp only [GenerateStaticHeatmap.mergedRun, hc, hgc, hdn, hm1]
        · simp only [GenerateStaticHeatmap.cacheRun, hc, hgc, hdn, hm2]
      | err =>
        have hgf : (g (locationQuery city)).isFound = false := by rw [hgc]; rfl
        have hdn := h2 city n (List.mem_cons_self _ _) hc hgf
        obtain ⟨hm1, hm2⟩ := ih c d h1
          (fun k n' hm => h2 k n' (List.mem_cons_of_mem _ hm))
          (fun k n' la lo hm => h3 k n' la lo (List.mem_cons_of_mem _ hm))
        constructor
        · simp only [GenerateStaticHeatmap.mergedRun, hc, hgc, hdn, hm1]
        · simp only [GenerateStaticHeatmap.cacheRun, hc, hgc, hdn, hm2]

theorem st_idempotent_runs (g : Geocoder) (f : List (String × ℕ))
    (c : List (String × GeoRecord)) :
    GenerateStaticHeatmap.mergedRun g f (GenerateStaticHeatmap.cacheRun g f c) =
        GenerateStaticHeatmap.mergedRun g f c ∧
      GenerateStaticHeatmap.cacheRun g f (GenerateStaticHeatmap.cacheRun g f c) =
        GenerateStaticHeatmap.cacheRun g f c :=
  st_main g f c (GenerateStaticHeatmap.cacheRun g f c)
    (fun k r h => ⟨r.count, st_cache_preserves g f c k r h⟩)
    (fun k _ _ hk hf => st_cache_fail_none g f c k hk hf)
    (fun k n la lo hm hk hf => st_cache_fresh g f c k n la lo hm hk hf)

theorem st_merged_mem_iff (g : Geocoder) (f : List (String × ℕ)) :
    ∀ (c : List (String × GeoRecord)), (f.map Prod.fst).Nodup → ∀ k,
      (k ∈ (GenerateStaticHeatmap.mergedRun g f c).map Prod.fst ↔
        ∃ n, (k, n) ∈ f ∧
          ((dictFind c k).isSome = true ∨ (g (locationQuery k)).isFound = true)) := by
  induction f with
  | nil => intro c _ k; simp [GenerateStaticHeatmap.mergedRun]
  | cons e f ih =>
    obtain ⟨city, n⟩ := e
    intro c hnd k
    rw [List.map_cons, List.nodup_cons] at hnd
    obtain ⟨hcity, hnd'⟩ := hnd
    by_cases hk : k = city
    · subst hk
      cases hc : dictFind c k with
      | some r =>
        apply iff_of_true
        · simp [GenerateStaticHeatmap.mergedRun, hc]
        · exact ⟨n, List.mem_cons_self _ _, Or.inl rfl⟩
      | none =>
        cases hgc : g (locationQuery k) with
        | found la lo =>
          apply iff_of_true
          · simp [GenerateStaticHeatmap.mergedRun, hc, hgc]
          · exact ⟨n, List.mem_cons_self _ _, Or.inr rfl⟩
        | notFound =>
          apply iff_of_false
          · intro h
            simp only [GenerateStaticHeatmap.mergedRun, hc, hgc] at h
            exact hcity (st_merged_keys_subset g f c k h)
          · rintro ⟨m, _, hres⟩
            rcases hres with hs | hf
            · simp at hs
            · simp [GeoReply.isFound] at hf
        | err =>
          apply iff_of_false
          · intro h
            simp only [GenerateStaticHeatmap.mergedRun, hc, hgc] at h
            exact hcity (st_merged_keys_subset g f c k h)
          · rintro ⟨m, _, hres⟩
            rcases hres with hs | hf
            · simp at hs
            · simp [GeoReply.isFound] at hf
    · have hiff : ∀ (c' : List (String × GeoRecord)),
          ((∃ m, (k, m) ∈ (city, n) :: f ∧
            ((dictFind c' k).isSome = true ∨ (g (locationQuery k)).isFound = true)) ↔
           (∃ m, (k, m) ∈ f ∧
            ((dictFind c' k).isSome = true ∨ (g (locationQuery k)).isFound = true))) := by
        intro c'
        constructor
        · rintro ⟨m, hmem, hres⟩
          rcases List.mem_cons.mp hmem with heq | htail
          · exact absurd (congrArg Prod.fst heq) hk
          · exact ⟨m, htail, hres⟩
        · rintro ⟨m, hmem, hres⟩
          exact ⟨m, List.mem_cons_of_mem _ hmem, hres⟩
      cases hc : dictFind c city with
      | some r =>
        rw [hiff c, ← ih c hnd' k]
        simp only [GenerateStaticHeatmap.mergedRun, hc, List.map_cons, List.mem_cons]
        constructor
        · rintro (h | h)
          · exact absurd h hk
          · exact h
        · intro h
          exact Or.inr h
      | none =>
        cases hgc : g (locationQuery city) with
        | found la lo =>
          rw [hiff c, ← @dictFind_append_single_ne GeoRecord c k city ⟨la, lo, n⟩
            (Ne.symm hk), ← ih _ hnd' k]
          simp only [GenerateStaticHeatmap.mergedRun, hc, hgc, List.map_cons, List.mem_cons]
          constructor
          · rintro (h | h)
            · exact absurd h hk
            · exact h
          · intro h
            exact Or.inr h
        | notFound =>
          rw [hiff c, ← ih c hnd' k]
          simp only [GenerateStaticHeatmap.mergedRun, hc, hgc]
        | err =>
          rw [hiff c, ← ih c hnd' k]
          simp only [GenerateStaticHeatmap.mergedRun, hc, hgc]

/-! Small helper lemmas for the counting and rendering claims. -/

theorem rowCities_length (row : List String) :
    (rowCities row).length = row.dropLast.countP (fun s => pyStrip s ≠ "") := by
  unfold rowCities
  rw [← List.countP_eq_length_filter, List.countP_map]
  rfl

theorem min_threshold_ge_three (counts : List ℕ) :
    3 ≤ GenerateHeatmap.min_threshold counts := by
  unfold GenerateHeatmap.min_threshold
  split
  · exact le_refl _
  · exact le_max_left _ _

theorem hm_skip (g : Geocoder) (c : List (String × GeoRecord)) (e : String × ℕ)
    (hnone : dictFind c e.1 = none) (hfail : (g (locationQuery e.1)).isFound = false) :
    GenerateHeatmap.geocodeStep g c e = c := by
  unfold GenerateHeatmap.geocodeStep
  rw [hnone]
  cases hgr : g (locationQuery e.1) with
  | found la lo => rw [hgr] at hfail; simp [GeoReply.isFound] at hfail
  | notFound => rfl
  | err => rfl

/-- C3.  For every input whose first row is a header, the sum of the
FrequencyTable values equals the number of fields that are non-empty after
whitespace trimming, across all non-header rows, excluding each row's last
field; and the spec's concrete scenario: header A/B/C/D/E/Exclude with the
single data row Santos//Santos/Campinas//ignored yields the table
Santos 2, Campinas 1. -/
theorem c3_frequency_sum :
    (∀ (header : List String) (dataRows : List (List String)) (cities : List String),
        load_cities_from_csv (header :: dataRows) = some cities →
        (cities.dedup.map (fun c => cities.count c)).sum =
          (dataRows.map (fun row => row.dropLast.countP (fun s => pyStrip s ≠ ""))).sum) ∧
      load_cities_from_csv
          [["A", "B", "C", "D", "E", "Exclude"],
           ["Santos", "", "Santos", "Campinas", "", "ignored"]] =
        some ["Santos", "Santos", "Campinas"] ∧
      counterTable ["Santos", "Santos", "Campinas"] = [("Santos", 2), ("Campinas", 1)] := by
  refine ⟨?_, by decide, by decide⟩
  intro header dataRows cities hload
  simp only [load_cities_from_csv] at hload
  injection hload with h
  subst h
  rw [List.sum_map_count_dedup_eq_length, List.length_flatten, List.map_map]
  have hfun : (List.length ∘ rowCities) =
      fun row : List String => row.dropLast.countP (fun s => pyStrip s ≠ "") :=
    funext (fun row => rowCities_length row)
  rw [hfun]

/-- C3 witness: the universal part applied to the concrete scenario input:
3 = 2 + 1 occurrences survive the trailing-column drop and blank filter. -/
theorem c3_frequency_sum_witness :
    (((["Santos", "Santos", "Campinas"] : List String).dedup.map
        (fun c => (["Santos", "Santos", "Campinas"] : List String).count c)).sum =
      ([["Santos", "", "Santos", "Campinas", "", "ignored"]].map
        (fun row => row.dropLast.countP (fun s => pyStrip s ≠ ""))).sum) :=
  c3_frequency_sum.1 ["A", "B", "C", "D", "E", "Exclude"]
    [["Santos", "", "Santos", "Campinas", "", "ignored"]]
    ["Santos", "Santos", "Campinas"] (by decide)

/-- C10.  A data row with exactly one field contributes nothing: its sole
field is dropped as the excluded trailing column (`row[:-1]` of a
singleton is empty) even when non-empty, and the function reports no
error for such a row - deleting the row leaves the output unchanged. -/
theorem c10_single_field_row :
    (∀ fieldVal : String, rowCities [fieldVal] = []) ∧
      ∀ (header : List String) (v : String) (pre post : List (List String)),
        load_cities_from_csv (header :: (pre ++ [v] :: post)) =
          load_cities_from_csv (header :: (pre ++ post)) := by
  constructor
  · intro fieldVal; rfl
  · intro header v pre post
    simp only [load_cities_from_csv, List.map_append, List.map_cons, List.flatten_append,
      List.flatten_cons]
    have hnil : rowCities [v] = [] := rfl
    rw [hnil, List.nil_append]

/-- C4 counterexample.  In the `generate_heatmap_image.py` rendering
variant the record with count 1 contributes exactly one density point
(`min(int(count), 30)` copies), but a contribution of `count * k` with
`2 <= k <= 2.5` would have to lie between 2 and 2.5 points; so the claim
that every variant expands each record into `count * k` points with such a
`k` fails at this record. -/
theorem c4_counterexample :
    (GenerateHeatmapImage.expandPoints ⟨0, 0, 1⟩).length = 1 ∧
      ¬(2 ≤ ((GenerateHeatmapImage.expandPoints ⟨0, 0, 1⟩).length : ℚ) ∧
        ((GenerateHeatmapImage.expandPoints ⟨0, 0, 1⟩).length : ℚ) ≤ 5 / 2) := by
  have hl : (GenerateHeatmapImage.expandPoints ⟨0, 0, 1⟩).length = 1 := rfl
  refine ⟨hl, ?_⟩
  rintro ⟨h2, _⟩
  rw [hl] at h2
  norm_num at h2

/-- C4 amended.  The point expansions actually performed: in
`generate_heatmap.py` each record meeting the threshold contributes
`max(1, 2 * count)` points and others none; in `generate_static_heatmap.py`
every record contributes `max(1, floor(2.5 * count))` points; in
`generate_heatmap_image.py` (and `generate_heatmap_geojson.py`) every
record contributes `min(count, 30)` points; in `generate_heatmap_svg.py`
every record contributes `min(count, 40)` points.  Only the first two
variants scale by a factor near 2-2.5; the image and svg variants cap the
count instead. -/
theorem c4_amended_point_expansion (gc : List (String × GeoRecord)) (thr : ℚ) :
    (GenerateHeatmap.heat_data gc thr).length =
        (gc.map (fun e => if thr ≤ (e.2.count : ℚ) then max 1 (2 * e.2.count) else 0)).sum ∧
      (GenerateStaticHeatmap.heat_data gc).length =
        (gc.map (fun e => max 1 (5 * e.2.count / 2))).sum ∧
      (GenerateHeatmapImage.expanded_data gc).length =
        (gc.map (fun e => min e.2.count 30)).sum ∧
      (GenerateHeatmapSvg.heat_data gc).length =
        (gc.map (fun e => min e.2.count 40)).sum := by
  refine ⟨?_, ?_, ?_, ?_⟩
  · rw [GenerateHeatmap.heat_data, List.length_flatten, List.map_map]
    have hfn : (List.length ∘ fun e : String × GeoRecord => GenerateHeatmap.cityPoints thr e.2) =
        fun e : String × GeoRecord =>
          if thr ≤ (e.2.count : ℚ) then max 1 (2 * e.2.count) else 0 := by
      funext e
      simp only [Function.comp_apply, GenerateHeatmap.cityPoints]
      split
      · rw [List.length_replicate]
      · rfl
    rw [hfn]
  · rw [GenerateStaticHeatmap.heat_data, List.length_flatten, List.map_map]
    have hfn : (List.length ∘ fun e : String × GeoRecord =>
        GenerateStaticHeatmap.staticPoints e.2) =
        fun e : String × GeoRecord => max 1 (5 * e.2.count / 2) := by
      funext e
      simp only [Function.comp_apply, GenerateStaticHeatmap.staticPoints, List.length_replicate]
    rw [hfn]
  · rw [GenerateHeatmapImage.expanded_data, List.length_flatten, List.map_map]
    have hfn : (List.length ∘ fun e : String × GeoRecord =>
        GenerateHeatmapImage.expandPoints e.2) =
        fun e : String × GeoRecord => min e.2.count 30 := by
      funext e
      simp only [Function.comp_apply, GenerateHeatmapImage.expandPoints, List.length_replicate]
    rw [hfn]
  · rw [GenerateHeatmapSvg.heat_data, List.length_flatten, List.map_map]
    have hfn : (List.length ∘ fun e : String × GeoRecord =>
        GenerateHeatmapSvg.svgPoints e.2) =
        fun e : String × GeoRecord => min e.2.count 40 := by
      funext e
      simp only [Function.comp_apply, GenerateHeatmapSvg.svgPoints, List.length_replicate]
    rw [hfn]

/-- C5.  In `create_heatmap`, for every non-empty merged mapping the
display threshold equals `max(3, mean(counts) * 0.2)`, and a record
contributes heat points if and only if its count is at least that
threshold; on counts 1, 2, 3, 10, 50 the threshold is 3, the records with
counts 1 and 2 contribute nothing and those with counts 3, 10, 50
contribute. -/
theorem c5_threshold_filter :
    (∀ (c : ℕ) (cs : List ℕ),
        GenerateHeatmap.min_threshold (c :: cs) =
          max 3 (GenerateHeatmap.mean (c :: cs) * 0.2)) ∧
      (∀ (thr : ℚ) (r : GeoRecord),
        GenerateHeatmap.cityPoints thr r ≠ [] ↔ thr ≤ (r.count : ℚ)) ∧
      GenerateHeatmap.min_threshold [1, 2, 3, 10, 50] = 3 ∧
      GenerateHeatmap.cityPoints 3 ⟨0, 0, 1⟩ = [] ∧
      GenerateHeatmap.cityPoints 3 ⟨0, 0, 2⟩ = [] ∧
      GenerateHeatmap.cityPoints 3 ⟨0, 0, 3⟩ ≠ [] ∧
      GenerateHeatmap.cityPoints 3 ⟨0, 0, 10⟩ ≠ [] ∧
      GenerateHeatmap.cityPoints 3 ⟨0, 0, 50⟩ ≠ [] := by
  have hmean : GenerateHeatmap.mean [1, 2, 3, 10, 50] = 66 / 5 := by
    simp [GenerateHeatmap.mean]
    norm_num
  refine ⟨?_, ?_, ?_, ?_, ?_, ?_, ?_, ?_⟩
  · intro c cs
    simp [GenerateHeatmap.min_threshold]
  · intro thr r
    by_cases h : thr ≤ (r.count : ℚ)
    · simp only [GenerateHeatmap.cityPoints, if_pos h]
      refine iff_of_true ?_ h
      intro hcontra
      have hlen := congrArg List.length hcontra
      rw [List.length_replicate] at hlen
      simp at hlen
    · simp [GenerateHeatmap.cityPoints, if_neg h, h]
  · rw [show GenerateHeatmap.min_threshold [1, 2, 3, 10, 50] =
        max 3 (GenerateHeatmap.mean [1, 2, 3, 10, 50] * 0.2) by
      simp [GenerateHeatmap.min_threshold]]
    rw [hmean]
    rw [max_eq_left (by norm_num)]
  · norm_num [GenerateHeatmap.cityPoints]
  · norm_num [GenerateHeatmap.cityPoints]
  · norm_num [GenerateHeatmap.cityPoints]
  · norm_num [GenerateHeatmap.cityPoints]
  · norm_num [GenerateHeatmap.cityPoints]

/-- C9.  `create_heatmap` in `generate_heatmap.py` is partial: whenever no
record of the merged mapping meets the display threshold it raises before
saving the output file.  With an empty mapping it reads `avg_count`, which
only the non-empty branch assigns (`NameError` at line 92); with a
non-empty mapping in which every count is below the threshold the legend
block takes `min` of an empty list (`ValueError` at line 158). -/
theorem c9_create_heatmap_partial :
    GenerateHeatmap.create_heatmap [] =
        Except.error "NameError: name avg_count is not defined" ∧
      ∀ gc : List (String × GeoRecord), gc ≠ [] →
        (∀ e ∈ gc, (e.2.count : ℚ) <
          GenerateHeatmap.min_threshold (gc.map (fun e => e.2.count))) →
        GenerateHeatmap.create_heatmap gc =
          Except.error "ValueError: min arg is an empty sequence" := by
  constructor
  · rfl
  · intro gc hne hall
    cases gc with
    | nil => exact absurd rfl hne
    | cons a tl =>
      have hfilter : ((a.2.count :: tl.map (fun e => e.2.count)).filter
          (fun (k : ℕ) =>
            GenerateHeatmap.min_threshold (a.2.count :: tl.map (fun e => e.2.count)) ≤
              (k : ℚ))) = [] := by
        rw [List.filter_eq_nil_iff]
        intro k hk
        have hklt : (k : ℚ) <
            GenerateHeatmap.min_threshold ((a :: tl).map (fun e => e.2.count)) := by
          rcases List.mem_cons.mp hk with hk1 | hk2
          · subst hk1
            exact hall a (List.mem_cons_self _ _)
          · obtain ⟨e, hemem, hekey⟩ := List.mem_map.mp hk2
            subst hekey
            exact hall e (List.mem_cons_of_mem _ hemem)
        simp only [decide_eq_true_eq]
        exact not_le.mpr hklt
      simp only [GenerateHeatmap.create_heatmap, List.map_cons]
      rw [hfilter]
      rfl

/-- C9 witness: a single record with count 1 falls below the threshold
`max(3, 0.2)` and `create_heatmap` raises the legend `ValueError`. -/
theorem c9_create_heatmap_partial_witness :
    GenerateHeatmap.create_heatmap [(exSantos, ⟨-24, -46, 1⟩)] =
      Except.error "ValueError: min arg is an empty sequence" := by
  apply c9_create_heatmap_partial.2
  · simp
  · intro e he
    rw [List.mem_singleton] at he
    subst he
    refine lt_of_lt_of_le ?_ (min_threshold_ge_three _)
    norm_num

/-- C1 counterexample.  In `generate_heatmap.py`, a cache hit is skipped
with `continue` and the cached record is returned unchanged: with the
cache holding Santos at count 5 and the current FrequencyTable holding
Santos at frequency 8, the merged output still carries count 5, not the
current frequency 8 required by the claim. -/
theorem c1_counterexample :
    dictFind (GenerateHeatmap.geocode_cities gNone [(exSantos, 8)] exCache) exSantos =
        some ⟨-24, -46, 5⟩ ∧ (5 : ℕ) ≠ 8 := by
  exact ⟨rfl, by decide⟩

/-- C1 amended.  For a CityName in both the FrequencyTable and the
starting Cache, the merged latitude/longitude always equal the cached
values, for any geocoder behaviour.  The count is refreshed to the
current frequency only in the `generate_static_heatmap.py` (and geojson)
variant; in the `generate_heatmap.py` (and image/svg) variant the whole
cached record, its stale count included, is returned. -/
theorem c1_amended_cache_reuse (g : Geocoder) (f : List (String × ℕ))
    (c : List (String × GeoRecord)) (city : String) (n : ℕ) (r : GeoRecord) :
    ((city, n) ∈ f → dictFind c city = some r →
      (city, (⟨r.lat, r.lon, n⟩ : GeoRecord)) ∈
        (GenerateStaticHeatmap.geocode_cities g f c).geocoded) ∧
    (dictFind c city = some r →
      dictFind (GenerateHeatmap.geocode_cities g f c) city = some r) := by
  constructor
  · intro hmem hsome
    rw [GenerateStaticHeatmap.geocode_cities_eq]
    exact st_merged_hit g f c city n r hmem hsome
  · intro hsome
    exact hm_preserves g f c city r hsome

/-- C1 amended witness: Santos cached at (-24, -46) with count 5 and
frequency 8 gives the static-variant record with count 8 and leaves the
`generate_heatmap.py` record at count 5. -/
theorem c1_amended_cache_reuse_witness :
    (exSantos, (⟨-24, -46, 8⟩ : GeoRecord)) ∈
        (GenerateStaticHeatmap.geocode_cities gNone [(exSantos, 8)] exCache).geocoded ∧
      dictFind (GenerateHeatmap.geocode_cities gNone [(exSantos, 8)] exCache) exSantos =
        some ⟨-24, -46, 5⟩ := by
  constructor
  · exact (c1_amended_cache_reuse gNone [(exSantos, 8)] exCache exSantos 8
      ⟨-24, -46, 5⟩).1 (List.mem_singleton.mpr rfl) rfl
  · exact (c1_amended_cache_reuse gNone [(exSantos, 8)] exCache exSantos 8
      ⟨-24, -46, 5⟩).2 rfl

/-- C2 counterexample.  In `generate_heatmap.py` the merged output is the
cache dict itself, so a name present in the starting cache but absent
from the FrequencyTable (here: Santos with an empty table) still appears
in the merged output, contradicting the claim that no CityName absent
from the FrequencyTable appears there. -/
theorem c2_counterexample :
    (dictFind (GenerateHeatmap.geocode_cities gNone [] exCache) exSantos).isSome = true ∧
      exSantos ∉ (([] : List (String × ℕ)).map Prod.fst) := by
  exact ⟨rfl, by simp⟩

/-- C2 amended.  In the `generate_static_heatmap.py` (and geojson)
variant the claim holds: with distinct FrequencyTable keys the merged
output holds exactly the table's names whose coordinates were obtained
(cache hit or successful fresh geocode), its keys are duplicate-free,
every merged name is in the updated cache, and with a duplicate-free
starting cache the updated cache keys stay duplicate-free.  In the
`generate_heatmap.py` variant the merged output additionally retains
every starting-cache entry, including names absent from the table. -/
theorem c2_amended_merge (g : Geocoder) (f : List (String × ℕ))
    (c : List (String × GeoRecord)) :
    ((f.map Prod.fst).Nodup →
      (∀ k, k ∈ ((GenerateStaticHeatmap.geocode_cities g f c).geocoded).map Prod.fst ↔
        ∃ n, (k, n) ∈ f ∧
          ((dictFind c k).isSome = true ∨ (g (locationQuery k)).isFound = true)) ∧
      (((GenerateStaticHeatmap.geocode_cities g f c).geocoded).map Prod.fst).Nodup ∧
      (∀ k, k ∈ ((GenerateStaticHeatmap.geocode_cities g f c).geocoded).map Prod.fst →
        k ∈ ((GenerateStaticHeatmap.geocode_cities g f c).cached_data).map Prod.fst)) ∧
    ((c.map Prod.fst).Nodup →
      (((GenerateStaticHeatmap.geocode_cities g f c).cached_data).map Prod.fst).Nodup) ∧
    (∀ k r, dictFind c k = some r →
      dictFind (GenerateHeatmap.geocode_cities g f c) k = some r) := by
  refine ⟨?_, ?_, ?_⟩
  · intro hnd
    rw [GenerateStaticHeatmap.geocode_cities_eq]
    exact ⟨st_merged_mem_iff g f c hnd, st_merged_nodup g f c hnd,
      fun k => st_merged_sub_cache g f c k⟩
  · intro hnd
    rw [GenerateStaticHeatmap.geocode_cities_eq]
    exact st_cache_nodup g f c hnd
  · intro k r
    exact hm_preserves g f c k r

/-- C2 amended witness: with the singleton table Jundiai 3, the empty
cache and a geocoder resolving Jundiai, the static-variant merged output
holds exactly Jundiai, once, and it is in the updated cache. -/
theorem c2_amended_merge_witness :
    (exJundiai ∈
        ((GenerateStaticHeatmap.geocode_cities gJundiai [(exJundiai, 3)] []).geocoded).map
          Prod.fst) ∧
      ((((GenerateStaticHeatmap.geocode_cities gJundiai [(exJundiai, 3)] []).geocoded).map
          Prod.fst).Nodup) ∧
      (exJundiai ∈
        ((GenerateStaticHeatmap.geocode_cities gJundiai [(exJundiai, 3)] []).cached_data).map
          Prod.fst) ∧
      dictFind (GenerateHeatmap.geocode_cities gJundiai [(exJundiai, 3)] exCache) exSantos =
        some ⟨-24, -46, 5⟩ := by
  have h := c2_amended_merge gJundiai [(exJundiai, 3)] ([] : List (String × GeoRecord))
  have hnd : (([(exJundiai, 3)] : List (String × ℕ)).map Prod.fst).Nodup := by simp
  have hmem : exJundiai ∈
      ((GenerateStaticHeatmap.geocode_cities gJundiai [(exJundiai, 3)] []).geocoded).map
        Prod.fst := by
    rw [(h.1 hnd).1 exJundiai]
    refine ⟨3, List.mem_singleton.mpr rfl, Or.inr ?_⟩
    rw [show gJundiai (locationQuery exJundiai) = GeoReply.found (-23) (-47) from rfl]
    rfl
  refine ⟨hmem, (h.1 hnd).2.1, (h.1 hnd).2.2 exJundiai hmem, ?_⟩
  exact (c2_amended_merge gJundiai [(exJundiai, 3)] exCache).2.2 exSantos ⟨-24, -46, 5⟩ rfl

/-- C6.  Running `geocode_cities` a second time with the same
FrequencyTable, starting from the cache persisted by the first run, with
the geocoder (a fixed function, hence answering identically in both
runs), reproduces the first run's merged output and leaves the persisted
cache unchanged - in the `generate_static_heatmap.py` variant and in the
`generate_heatmap.py` variant alike. -/
theorem c6_idempotent (g : Geocoder) (f : List (String × ℕ))
    (c : List (String × GeoRecord)) :
    GenerateStaticHeatmap.geocode_cities g f
        ((GenerateStaticHeatmap.geocode_cities g f c).cached_data) =
      GenerateStaticHeatmap.geocode_cities g f c ∧
    GenerateHeatmap.geocode_cities g f (GenerateHeatmap.geocode_cities g f c) =
      GenerateHeatmap.geocode_cities g f c := by
  constructor
  · obtain ⟨h1, h2⟩ := st_idempotent_runs g f c
    simp only [GenerateStaticHeatmap.geocode_cities_eq]
    rw [GenerateStaticHeatmap.GeoState.mk.injEq]
    exact ⟨h1, h2⟩
  · exact hm_idempotent g f c

/-- C7.  The cache written at the end of `geocode_cities` contains every
starting entry unchanged (it never shrinks and coordinates are never
modified), gains an entry for each newly resolved name, contains nothing
else, and the write-back is unconditional: with zero new resolutions the
written cache is exactly the starting one.  Proved for both the
`generate_static_heatmap.py` cache dict and the `generate_heatmap.py`
merged dict (which is the cache there). -/
theorem c7_cache_write_back (g : Geocoder) (f : List (String × ℕ))
    (c : List (String × GeoRecord)) :
    (∀ k r, dictFind c k = some r →
        dictFind ((GenerateStaticHeatmap.geocode_cities g f c).cached_data) k = some r ∧
        dictFind (GenerateHeatmap.geocode_cities g f c) k = some r) ∧
    (∀ k n la lo, (k, n) ∈ f → dictFind c k = none →
        g (locationQuery k) = GeoReply.found la lo →
        (∃ m, dictFind ((GenerateStaticHeatmap.geocode_cities g f c).cached_data) k =
          some ⟨la, lo, m⟩) ∧
        ∃ m, dictFind (GenerateHeatmap.geocode_cities g f c) k = some ⟨la, lo, m⟩) ∧
    (∀ k,
      ((dictFind ((GenerateStaticHeatmap.geocode_cities g f c).cached_data) k).isSome = true →
        (dictFind c k).isSome = true ∨ k ∈ f.map Prod.fst) ∧
      ((dictFind (GenerateHeatmap.geocode_cities g f c) k).isSome = true →
        (dictFind c k).isSome = true ∨ k ∈ f.map Prod.fst)) ∧
    ((∀ k n, (k, n) ∈ f → (dictFind c k).isSome = true) →
        (GenerateStaticHeatmap.geocode_cities g f c).cached_data = c ∧
        GenerateHeatmap.geocode_cities g f c = c) := by
  refine ⟨?_, ?_, ?_, ?_⟩
  · intro k r hsome
    rw [GenerateStaticHeatmap.geocode_cities_eq]
    exact ⟨st_cache_preserves g f c k r hsome, hm_preserves g f c k r hsome⟩
  · intro k n la lo hmem hnone hfound
    rw [GenerateStaticHeatmap.geocode_cities_eq]
    exact ⟨st_cache_fresh g f c k n la lo hmem hnone hfound,
      hm_fresh_entry g f c k n la lo hmem hnone hfound⟩
  · intro k
    rw [GenerateStaticHeatmap.geocode_cities_eq]
    exact ⟨st_cache_domain g f c k, hm_domain g f c k⟩
  · intro hall
    rw [GenerateStaticHeatmap.geocode_cities_eq]
    refine ⟨st_all_hits g f c hall, hm_noop g f c ?_⟩
    intro k n hmem hnone
    have := hall k n hmem
    rw [hnone] at this
    simp at this

/-- C7 witness: starting cache holding Santos, table holding the new name
Jundiai which the geocoder resolves to (-23, -47): the written cache
keeps Santos byte-for-byte and has gained Jundiai, and with the table
holding only the cached Santos the written cache is exactly the starting
cache. -/
theorem c7_cache_write_back_witness :
    dictFind ((GenerateStaticHeatmap.geocode_cities gJundiai [(exJundiai, 3)]
        exCache).cached_data) exSantos = some ⟨-24, -46, 5⟩ ∧
      (∃ m, dictFind ((GenerateStaticHeatmap.geocode_cities gJundiai [(exJundiai, 3)]
        exCache).cached_data) exJundiai = some ⟨-23, -47, m⟩) ∧
      (GenerateStaticHeatmap.geocode_cities gNone [(exSantos, 8)] exCache).cached_data =
        exCache := by
  refine ⟨?_, ?_, ?_⟩
  · exact ((c7_cache_write_back gJundiai [(exJundiai, 3)] exCache).1 exSantos
      ⟨-24, -46, 5⟩ rfl).1
  · exact ((c7_cache_write_back gJundiai [(exJundiai, 3)] exCache).2.1 exJundiai 3
      (-23) (-47) (List.mem_singleton.mpr rfl) rfl rfl).1
  · refine ((c7_cache_write_back gNone [(exSantos, 8)] exCache).2.2.2 ?_).1
    intro k n hmem
    rw [List.mem_singleton] at hmem
    injection hmem with h1 h2
    subst h1
    rfl

/-- C8.  A CityName that is actually queried (absent from the cache)
whose lookup returns no match or raises never produces an entry in the
`generate_heatmap.py` dict (which serves as both merged output and
cache), and the loop continues: the failing item is a no-op and the rest
of the batch is processed exactly as if the item were absent. -/
theorem c8_failed_lookup_skipped (g : Geocoder) (c : List (String × GeoRecord))
    (bad : String) (n : ℕ) (f f2 : List (String × ℕ)) :
    (dictFind c bad = none → (g (locationQuery bad)).isFound = false →
      dictFind (GenerateHeatmap.geocode_cities g f c) bad = none) ∧
    (dictFind c bad = none → (g (locationQuery bad)).isFound = false →
      GenerateHeatmap.geocode_cities g ((bad, n) :: f2) c =
        GenerateHeatmap.geocode_cities g f2 c) := by
  constructor
  · intro hnone hfail
    exact hm_fail_none g f c bad hnone hfail
  · intro hnone hfail
    rw [hm_cons, hm_skip g c (bad, n) hnone hfail]

/-- C8 witness: Santos is not cached and the geocoder finds nothing, so
the run of `generate_heatmap.py` over the singleton table leaves the
empty dict without a Santos entry and equals the run over the empty
table. -/
theorem c8_failed_lookup_skipped_witness :
    dictFind (GenerateHeatmap.geocode_cities gNone [(exSantos, 8)] []) exSantos = none ∧
      GenerateHeatmap.geocode_cities gNone [(exSantos, 8)] [] =
        GenerateHeatmap.geocode_cities gNone [] [] := by
  constructor
  · exact (c8_failed_lookup_skipped gNone [] exSantos 8 [(exSantos, 8)] []).1 rfl rfl
  · exact (c8_failed_lookup_skipped gNone [] exSantos 8 [] []).2 rfl rfl
